import Mathlib

/-!
Verification of the pico-probe SWD transaction engine.

This file is a shallow embedding of `src/dap.rs` and of the USB dispatch
handler in `src/bin/pico-probe.rs`.  Pure functions of the source become Lean
functions; the stateful bit-banging code becomes explicit state passing over a
`Context` record that mirrors the Rust `Context` struct, extended with an
explicit model of the electrical environment:

* `tgt : Nat → Bool` is the sequence of levels present on the SWDIO wire at
  each successive sampling event (the target's answers), with `pos` counting
  how many samples have been taken so far;
* `wire_swclk`, `wire_nreset` are the levels observed on the other two lines
  when they are sampled in floating-input mode (only `Context::pins` does);
* `trace` logs one event per clock cycle produced on the bus: `Event.w b` for
  a cycle in which the code drives (or attempts to drive) the data line to
  level `b` (`Swd::write_bit`, `Context::sequence`), and `Event.r b` for a
  cycle in which the data line is sampled and reads `b` (`Swd::read_bit`);
* `delayed` accumulates the total processor cycles spent in
  `cortex_m::asm::delay` busy-waits.

Machine integers become `Nat` with an explicit `% 2^w` where the source can
overflow (`u8`/`u32` left shifts in the receive loops).  Rust division by
zero panics; the one place this can happen (`Context::set_clock`) is modelled
with `Option`, `none` standing for the panic.

The `dap-rs` crate is an external dependency whose source is not part of this
repository; the handful of items the engine uses from it (`swd::make_request`,
`swd::Ack::try_ok`, the error and configuration enums, the `swj::Pins` mask)
are modelled from the spec's description of them, and are marked as such.
-/

namespace PicoProbe

/-- Mode of a GPIO line, mirroring the `DynPin` states the source uses:
`into_push_pull_output`, `into_floating_input`, `into_floating_disabled`. -/
inductive PinMode where
  | pushPullOutput
  | floatingInput
  | floatingDisabled
deriving DecidableEq, Repr

/-- A GPIO line: its configured mode and its output level register. -/
structure Pin where
  mode : PinMode
  level : Bool
deriving DecidableEq, Repr

def Pin.intoPushPullOutput (p : Pin) : Pin :=
  { p with mode := PinMode.pushPullOutput }

def Pin.intoFloatingInput (p : Pin) : Pin :=
  { p with mode := PinMode.floatingInput }

def Pin.intoFloatingDisabled (p : Pin) : Pin :=
  { p with mode := PinMode.floatingDisabled }

/-- `DynPin::set_state` / `set_high` / `set_low`: takes effect only when the
pin is configured as an output; in any other mode the HAL returns an error,
which the source discards with `.ok()` (spec 4.1: mode misuse is best-effort,
no error raised). -/
def Pin.setState (p : Pin) (b : Bool) : Pin :=
  if p.mode = PinMode.pushPullOutput then { p with level := b } else p

/-- One bus clock cycle, as logged in the trace: `w b` drives (or attempts to
drive) the data line at level `b`; `r b` samples the data line and reads `b`. -/
inductive Event where
  | w (b : Bool)
  | r (b : Bool)
deriving DecidableEq, Repr

/-- The Rust `Context` struct (`src/dap.rs` lines 8-16), extended with the
electrical-environment model described in the file header. -/
structure Context where
  max_frequency : Nat
  cpu_frequency : Nat
  cycles_per_us : Nat
  half_period_ticks : Nat
  swdio : Pin
  swclk : Pin
  nreset : Pin
  tgt : Nat → Bool
  wire_swclk : Bool
  wire_nreset : Bool
  pos : Nat
  trace : List Event
  delayed : Nat

/-- `cortex_m::asm::delay(n)`: busy-wait for `n` cycles. -/
def Context.delay (s : Context) (n : Nat) : Context :=
  { s with delayed := s.delayed + n }

/-- `matches!(self.swdio.is_high(), Ok(true))`: sampling the data line.  The
HAL read succeeds only in an input mode (otherwise `is_high` is an `Err` and
the `matches!` yields `false`); the observed level comes from the environment
stream `tgt`, and the sample is logged. -/
def Context.sample_swdio (s : Context) : Bool × Context :=
  let bit := (s.swdio.mode = PinMode.floatingInput : Bool) && s.tgt s.pos
  (bit, { s with pos := s.pos + 1, trace := s.trace ++ [Event.r bit] })

/-- `Context::from_pins` (`src/dap.rs` lines 27-39); the extra arguments
supply the environment model. -/
def Context.from_pins (swdio swclk nreset : Pin) (cpu_frequency : Nat)
    (tgt : Nat → Bool) (wire_swclk wire_nreset : Bool) : Context :=
  let max_frequency := 100000
  let half_period_ticks := cpu_frequency / max_frequency / 2
  { max_frequency := max_frequency
    cpu_frequency := cpu_frequency
    cycles_per_us := cpu_frequency / 1000000
    half_period_ticks := half_period_ticks
    swdio := swdio
    swclk := swclk
    nreset := nreset
    tgt := tgt
    wire_swclk := wire_swclk
    wire_nreset := wire_nreset
    pos := 0
    trace := []
    delayed := 0 }

/-- `u32::count_ones`, written with explicit fuel so that it reduces by
kernel computation (the fuel `n` bounds the recursion depth, which is at most
`log2 n + 1`). -/
def count_ones_fuel : Nat → Nat → Nat
  | 0, _ => 0
  | fuel + 1, n => if n = 0 then 0 else n % 2 + count_ones_fuel fuel (n / 2)

def count_ones (n : Nat) : Nat := count_ones_fuel n n

/-- `Swd::write_bit` (`src/dap.rs` lines 326-336): drive the data line to the
bit's level (best-effort through the HAL), clock low, half-period delay,
clock high, half-period delay.  Logs one `Event.w`. -/
def Swd.write_bit (s : Context) (bit : Nat) : Context :=
  let s1 : Context :=
    { s with swdio := s.swdio.setState (bit != 0),
             trace := s.trace ++ [Event.w (bit != 0)] }
  let s2 : Context := { s1 with swclk := s1.swclk.setState false }
  let s3 : Context := s2.delay s2.half_period_ticks
  let s4 : Context := { s3 with swclk := s3.swclk.setState true }
  s4.delay s4.half_period_ticks

/-- `Swd::read_bit` (`src/dap.rs` lines 338-346): clock low, half-period
delay, sample the data line, clock high, half-period delay. -/
def Swd.read_bit (s : Context) : Bool × Context :=
  let s1 : Context := { s with swclk := s.swclk.setState false }
  let s2 : Context := s1.delay s1.half_period_ticks
  let bs := s2.sample_swdio
  let s3 : Context := { bs.2 with swclk := bs.2.swclk.setState true }
  (bs.1, s3.delay s3.half_period_ticks)

/-- The shared receive loop body of `Swd::rx4`, `rx5`, `rx8`
(`data |= self.read_bit() & 1; data <<= 1;` on a `u8`), iterated `n` times. -/
def Swd.rxBits : Nat → Nat × Context → Nat × Context
  | 0, p => p
  | n + 1, (data, s) =>
    let bs := Swd.read_bit s
    Swd.rxBits n (((data ||| (if bs.1 then 1 else 0)) <<< 1) % 256, bs.2)

/-- `Swd::rx4` (`src/dap.rs` lines 261-272). -/
def Swd.rx4 (s : Context) : Nat × Context :=
  Swd.rxBits 4 (0, { s with swdio := s.swdio.intoFloatingInput })

/-- `Swd::rx5` (`src/dap.rs` lines 274-285). -/
def Swd.rx5 (s : Context) : Nat × Context :=
  Swd.rxBits 5 (0, { s with swdio := s.swdio.intoFloatingInput })

/-- `Swd::rx8` (`src/dap.rs` lines 287-298). -/
def Swd.rx8 (s : Context) : Nat × Context :=
  Swd.rxBits 8 (0, { s with swdio := s.swdio.intoFloatingInput })

/-- The shared transmit loop body of `Swd::tx8` and `Swd::send_data`
(`self.write_bit(data & 1); data >>= 1;`), iterated `n` times. -/
def Swd.txBits : Nat → Nat → Context → Context
  | 0, _, s => s
  | n + 1, data, s => Swd.txBits n (data / 2) (Swd.write_bit s (data % 2))

/-- `Swd::tx8` (`src/dap.rs` lines 253-259). -/
def Swd.tx8 (s : Context) (data : Nat) : Context :=
  Swd.txBits 8 data { s with swdio := s.swdio.intoPushPullOutput }

/-- `Swd::idle_low` (`src/dap.rs` lines 247-251): four `write_bit(0)`. -/
def Swd.idle_low (s : Context) : Context :=
  Swd.write_bit (Swd.write_bit (Swd.write_bit (Swd.write_bit s 0) 0) 0) 0

/-- `Swd::send_data` (`src/dap.rs` lines 300-309): 32 data bits LSB-first,
then the parity bit. -/
def Swd.send_data (s : Context) (data : Nat) (parity : Bool) : Context :=
  let s1 : Context := { s with swdio := s.swdio.intoPushPullOutput }
  let s2 : Context := Swd.txBits 32 data s1
  Swd.write_bit s2 (if parity then 1 else 0)

/-- The receive loop body of `Swd::read_data`
(`data |= (self.read_bit() & 1) as u32; data <<= 1;` on a `u32`). -/
def Swd.read_data_loop : Nat → Nat × Context → Nat × Context
  | 0, p => p
  | n + 1, (data, s) =>
    let bs := Swd.read_bit s
    Swd.read_data_loop n (((data ||| (if bs.1 then 1 else 0)) <<< 1) % 4294967296, bs.2)

/-- `Swd::read_data` (`src/dap.rs` lines 311-324): float the data line, run
the 32-bit receive loop, then read the parity bit. -/
def Swd.read_data (s : Context) : (Nat × Bool) × Context :=
  let s1 : Context := { s with swdio := s.swdio.intoFloatingInput }
  let ds := Swd.read_data_loop 32 (0, s1)
  let bs := Swd.read_bit ds.2
  ((ds.1, bs.1), bs.2)

/-- Modelled from the spec: the error taxonomy of `dap-rs`'s `swd::Error`
(spec section 7: `AckError{Wait|Fault|NoResponse}` plus `ParityError`, named
`BadParity` as in the source's `swd::Error::BadParity`). -/
inductive SwdError where
  | AckWait
  | AckFault
  | AckNoResponse
  | BadParity
deriving DecidableEq, Repr

/-- Modelled from the spec: `dap-rs`'s `swd::Ack::try_ok` — the 3-bit ACK
codes are OK = `0b001`, WAIT = `0b010`, FAULT = `0b100` (spec sections 7, 8
and glossary); OK yields success, the others the matching error, and any
other value signals no response. -/
def Ack.try_ok (ack : Nat) : Except SwdError Unit :=
  if ack = 1 then Except.ok ()
  else if ack = 2 then Except.error SwdError.AckWait
  else if ack = 4 then Except.error SwdError.AckFault
  else Except.error SwdError.AckNoResponse

/-- Modelled from the spec: `dap-rs`'s `swd::make_request` per the standard
SWD request framing (spec section 8: start bit, access-port flag, direction,
two address bits, parity over those four, stop `0`, park `1`; direction bit
set for a read).  `a % 2` and `a / 2 % 2` are the two register-address bits. -/
def make_request (apndp : Bool) (rnw : Bool) (a : Nat) : Nat :=
  let apbit : Nat := if apndp then 1 else 0
  let rwbit : Nat := if rnw then 1 else 0
  let a2 := a % 2
  let a3 := a / 2 % 2
  let parity := (apbit + rwbit + a2 + a3) % 2
  1 ||| (apbit <<< 1) ||| (rwbit <<< 2) ||| (a2 <<< 3) ||| (a3 <<< 4) |||
    (parity <<< 5) ||| (1 <<< 7)

/-- `Swd::read_inner` (`src/dap.rs` lines 181-211). -/
def Swd.read_inner (s : Context) (apndp : Bool) (a : Nat) :
    Except SwdError Nat × Context :=
  let req := make_request apndp true a
  let s1 := Swd.tx8 s req
  let rs := Swd.rx4 s1
  let ack := rs.1 >>> 1
  match Ack.try_ok ack with
  | Except.error e => (Except.error e, Swd.idle_low rs.2)
  | Except.ok _ =>
    let rd := Swd.read_data rs.2
    let data := rd.1.1
    let parity := rd.1.2
    let s2 := (Swd.rx8 rd.2).2
    let s3 := Swd.write_bit s2 0
    if (if parity then 1 else 0) = count_ones data % 2 then (Except.ok data, s3)
    else (Except.error SwdError.BadParity, s3)

/-- `Swd::write_inner` (`src/dap.rs` lines 213-239). -/
def Swd.write_inner (s : Context) (apndp : Bool) (a : Nat) (data : Nat) :
    Except SwdError Unit × Context :=
  let req := make_request apndp false a
  let s1 := Swd.tx8 s req
  let rs := Swd.rx5 s1
  let ack := (rs.1 >>> 1) &&& 7
  match Ack.try_ok ack with
  | Except.error e => (Except.error e, Swd.idle_low rs.2)
  | Except.ok _ =>
    let parity := count_ones data % 2 == 1
    let s2 := Swd.send_data rs.2 data parity
    let s3 := Swd.tx8 s2 0
    (Except.ok (), s3)

/-- Modelled from the spec: `dap-rs`'s `swd::TurnaroundPeriod` (the
single-cycle value the engine supports, and the other turnaround periods a
host may request). -/
inductive TurnaroundPeriod where
  | Cycles1
  | Cycles2
  | Cycles3
  | Cycles4
deriving DecidableEq, Repr

/-- Modelled from the spec: `dap-rs`'s `swd::DataPhase` (no extended data
phase versus a forced data phase). -/
inductive DataPhase where
  | NoDataPhase
  | AlwaysDataPhase
deriving DecidableEq, Repr

/-- `Swd::configure` (`src/dap.rs` lines 177-179); `&mut self` is never
written through, so the context is returned unchanged. -/
def Swd.configure (s : Context) (period : TurnaroundPeriod)
    (data_phase : DataPhase) : Bool × Context :=
  ((period = TurnaroundPeriod.Cycles1 : Bool) &&
    (data_phase = DataPhase.NoDataPhase : Bool), s)

/-- Rust `u32` division, which panics on a zero divisor; `none` models the
panic. -/
def checked_div (a b : Nat) : Option Nat :=
  if b = 0 then none else some (a / b)

/-- `Context::set_clock` (`src/dap.rs` lines 119-127).  The quotient
`cpu_frequency / max_frequency` is taken through `checked_div`: requesting
frequency 0 passes the `< cpu_frequency` test and then divides by zero, which
panics in Rust (`none` here). -/
def Context.set_clock (s : Context) (max_frequency : Nat) :
    Option (Bool × Context) :=
  if max_frequency < s.cpu_frequency then
    match checked_div s.cpu_frequency max_frequency with
    | none => none
    | some q =>
      some (true, { s with max_frequency := max_frequency,
                           half_period_ticks := q / 2 })
  else some (false, s)

/-- Modelled from the spec: the three line selectors of `dap-rs`'s
`swj::Pins` bitmask that the source uses (clock, data, reset), as a record of
the three selected/observed levels. -/
structure Pins where
  swclk : Bool
  swdio : Bool
  nreset : Bool
deriving DecidableEq, Repr

/-- The drive phase of `Context::pins` (`src/dap.rs` lines 44-74): each line
selected by the mask is switched to push-pull output at the requested level,
except the reset line, which is open-drain: requested high floats/disables
it, requested low drives an output low. -/
def Context.pins_drive (s : Context) (output mask : Pins) : Context :=
  let s1 : Context :=
    if mask.swclk then
      { s with swclk := (s.swclk.intoPushPullOutput).setState output.swclk }
    else s
  let s2 : Context :=
    if mask.swdio then
      { s1 with swdio := (s1.swdio.intoPushPullOutput).setState output.swdio }
    else s1
  if mask.nreset then
    if output.nreset then { s2 with nreset := s2.nreset.intoFloatingDisabled }
    else { s2 with nreset := (s2.nreset.intoPushPullOutput).setState false }
  else s2

/-- `Context::pins` (`src/dap.rs` lines 43-88): drive phase, settle delay of
`cycles_per_us * wait_us`, then float all three lines and sample them. -/
def Context.pins (s : Context) (output mask : Pins) (wait_us : Nat) :
    Pins × Context :=
  let s1 := Context.pins_drive s output mask
  let s2 := s1.delay (s1.cycles_per_us * wait_us)
  let s3 : Context :=
    { s2 with swclk := s2.swclk.intoFloatingInput,
              swdio := s2.swdio.intoFloatingInput,
              nreset := s2.nreset.intoFloatingInput }
  let bs := s3.sample_swdio
  ({ swclk := bs.2.wire_swclk, swdio := bs.1, nreset := bs.2.wire_nreset }, bs.2)

/-- One iteration `frame_bits` times of the inner loop of `Context::sequence`
(`src/dap.rs` lines 99-111): emit the byte's bits LSB-first, toggling the
clock low-then-high around each with half-period delays. -/
def Context.sequence_byte : Nat → Nat → Context → Context
  | 0, _, s => s
  | n + 1, byte, s =>
    let bit := byte % 2
    let s1 : Context :=
      { s with swdio := s.swdio.setState (bit != 0),
               trace := s.trace ++ [Event.w (bit != 0)] }
    let s2 : Context := { s1 with swclk := s1.swclk.setState false }
    let s3 : Context := s2.delay s2.half_period_ticks
    let s4 : Context := { s3 with swclk := s3.swclk.setState true }
    Context.sequence_byte n (byte / 2) (s4.delay s4.half_period_ticks)

/-- The outer loop of `Context::sequence` (`src/dap.rs` lines 96-113): for
each byte, clock out `min(bits, 8)` of its bits and decrement the remaining
bit budget. -/
def Context.sequence_loop : List Nat → Nat → Context → Context
  | [], _, s => s
  | byte :: rest, bits, s =>
    let frame_bits := min bits 8
    Context.sequence_loop rest (bits - frame_bits)
      (Context.sequence_byte frame_bits byte s)

/-- `Context::sequence` (`src/dap.rs` lines 90-117). -/
def Context.sequence (s : Context) (data : List Nat) (bits : Nat) : Context :=
  let s1 : Context :=
    { s with swdio := s.swdio.intoPushPullOutput,
             swclk := s.swclk.intoPushPullOutput }
  let s2 := Context.sequence_loop data bits s1
  { s2 with swclk := s2.swclk.intoFloatingInput,
            swdio := s2.swdio.intoFloatingInput }

/-- Modelled from the spec: `dap-rs`'s `dap::DapVersion` tag handed to the
out-of-scope command processor. -/
inductive DapVersion where
  | V1
  | V2
deriving DecidableEq, Repr

/-- Modelled from the spec: the decoded USB report variants of `dap-rs`'s
`usb::Request` that `on_usb` matches on (`src/bin/pico-probe.rs` lines
70-91): a v1-style data report, a v2-style data report, or a suspend
notification. -/
inductive UsbRequest where
  | DAP1Command (report : List Nat) (n : Nat)
  | DAP2Command (report : List Nat) (n : Nat)
  | Suspend
deriving DecidableEq, Repr

/-- The outward effect of one `on_usb` invocation: a reply on the v1 channel,
a reply on the v2 channel, a suspend of the DAP handler, or nothing. -/
inductive UsbAction where
  | dap1_reply (bytes : List Nat)
  | dap2_reply (bytes : List Nat)
  | suspended
  | no_action
deriving DecidableEq, Repr

/-- The USB interrupt handler `on_usb` (`src/bin/pico-probe.rs` lines 61-93),
parameterised by the out-of-scope command processor: `process payload version`
returns the response length and the filled response buffer.  The `DAP1Command`
arm's body is commented out in the source, so it produces nothing. -/
def on_usb (process : List Nat → DapVersion → Nat × List Nat)
    (request : Option UsbRequest) : UsbAction :=
  match request with
  | none => UsbAction.no_action
  | some (UsbRequest.DAP1Command _ _) => UsbAction.no_action
  | some (UsbRequest.DAP2Command report n) =>
    let lr := process (report.take n) DapVersion.V2
    if lr.1 > 0 then UsbAction.dap2_reply (lr.2.take lr.1) else UsbAction.no_action
  | some UsbRequest.Suspend => UsbAction.suspended

/-! ### Concrete environments used by witnesses and counterexamples -/

/-- A freshly acquired context at the given CPU frequency: both SWD lines in
push-pull output mode (as `Swd::new` leaves them), reset floating, and the
given target answer stream. -/
def mkCtxAt (cpu : Nat) (tgt : Nat → Bool) : Context :=
  Context.from_pins ⟨PinMode.pushPullOutput, false⟩ ⟨PinMode.pushPullOutput, false⟩
    ⟨PinMode.floatingInput, false⟩ cpu tgt false false

/-- The standard 125 MHz RP2040 context. -/
def mkCtx (tgt : Nat → Bool) : Context := mkCtxAt 125000000 tgt

/-- A target that never drives the line high. -/
def silentTgt : Nat → Bool := fun _ => false

/-- The C1 exchange: turnaround sample low, ACK `0b001` (OK) sent LSB-first
(levels 1,0,0), then `0xDEADBEEF` LSB-first, then a parity bit of 1. -/
def deadbeefP1Tgt : Nat → Bool := fun i =>
  if i = 0 then false
  else if i ≤ 3 then i = 1
  else if i ≤ 35 then Nat.testBit 0xDEADBEEF (i - 4)
  else i = 36

/-- The same exchange with the parity bit 0 instead. -/
def deadbeefP0Tgt : Nat → Bool := fun i =>
  if i = 0 then false
  else if i ≤ 3 then i = 1
  else if i ≤ 35 then Nat.testBit 0xDEADBEEF (i - 4)
  else false

/-- Sampled levels 0,1,0,0,(0): a turnaround reading low followed by the OK
ACK `0b001` LSB-first. -/
def okAckTgt : Nat → Bool := fun i => i = 1

/-- A stream whose first four samples are 0,0,0,1 — the unique prefix the
read path's ACK extraction maps to the value 1 — followed by 32 low data
bits and a high parity bit (sample 36). -/
def ackOkReadTgt : Nat → Bool := fun i => i = 3 || i = 36

/-- A stream whose first five samples are 0,0,0,0,1 — a prefix the write
path's ACK extraction maps to the value 1. -/
def ackOkWriteTgt : Nat → Bool := fun i => i = 4

def c1Ctx : Context := mkCtx deadbeefP1Tgt

def c1Ctx0 : Context := mkCtx deadbeefP0Tgt

def c2Ctx : Context := mkCtx okAckTgt

def cReadCtx : Context := mkCtx ackOkReadTgt

def cWriteCtx : Context := mkCtx ackOkWriteTgt

def c0Ctx : Context := mkCtx silentTgt

def c48Ctx : Context := mkCtxAt 48000000 silentTgt

/-- Follows the spec's words (for comparison with the source's ACK
extraction): "Read 4 bits (turnaround + 3-bit ACK), discard the turnaround
bit, interpret remaining 3 bits as the ACK code", the three ACK bits taken in
the order received, LSB first — i.e. the samples at positions `pos+1`,
`pos+2`, `pos+3` of the line, weighted 1, 2, 4. -/
def spec_ack_bits (s : Context) : Nat :=
  (if s.tgt (s.pos + 1) then 1 else 0) + 2 * (if s.tgt (s.pos + 2) then 1 else 0) +
    4 * (if s.tgt (s.pos + 3) then 1 else 0)

end PicoProbe

deriving instance DecidableEq for Except

namespace PicoProbe

/-! ### Helper lemmas about the bit primitives -/

theorem Pin.mode_setState (p : Pin) (b : Bool) : (p.setState b).mode = p.mode := by
  unfold Pin.setState
  split <;> rfl

theorem Swd.write_bit_trace (s : Context) (bit : Nat) :
    (Swd.write_bit s bit).trace = s.trace ++ [Event.w (bit != 0)] := rfl

theorem Swd.write_bit_swdio_mode (s : Context) (bit : Nat) :
    (Swd.write_bit s bit).swdio.mode = s.swdio.mode := by
  show (s.swdio.setState (bit != 0)).mode = s.swdio.mode
  exact Pin.mode_setState s.swdio (bit != 0)

theorem Swd.write_bit_delayed (s : Context) (bit : Nat) :
    (Swd.write_bit s bit).delayed =
      s.delayed + s.half_period_ticks + s.half_period_ticks := rfl

theorem Swd.read_bit_swdio (s : Context) : (Swd.read_bit s).2.swdio = s.swdio := rfl

theorem Swd.rxBits_swdio_mode :
    ∀ (n d : Nat) (s : Context), ((Swd.rxBits n (d, s)).2).swdio.mode = s.swdio.mode
  | 0, _, _ => rfl
  | n + 1, d, s => by
    show ((Swd.rxBits n (_, (Swd.read_bit s).2)).2).swdio.mode = s.swdio.mode
    rw [Swd.rxBits_swdio_mode n _ (Swd.read_bit s).2, Swd.read_bit_swdio]

theorem Swd.rx4_swdio_mode (s : Context) :
    ((Swd.rx4 s).2).swdio.mode = PinMode.floatingInput := by
  show ((Swd.rxBits 4 (0, _)).2).swdio.mode = _
  rw [Swd.rxBits_swdio_mode]
  rfl

theorem Swd.rx5_swdio_mode (s : Context) :
    ((Swd.rx5 s).2).swdio.mode = PinMode.floatingInput := by
  show ((Swd.rxBits 5 (0, _)).2).swdio.mode = _
  rw [Swd.rxBits_swdio_mode]
  rfl

theorem Swd.idle_low_trace (s : Context) :
    (Swd.idle_low s).trace =
      s.trace ++ [Event.w false, Event.w false, Event.w false, Event.w false] := by
  simp [Swd.idle_low, Swd.write_bit_trace]

theorem Swd.idle_low_swdio_mode (s : Context) :
    (Swd.idle_low s).swdio.mode = s.swdio.mode := by
  simp [Swd.idle_low, Swd.write_bit_swdio_mode]

theorem mod_two_bne (n : Nat) : (n % 2 != 0) = decide (n % 2 = 1) := by
  rcases Nat.mod_two_eq_zero_or_one n with h | h <;> rw [h] <;> rfl

theorem Swd.txBits_trace :
    ∀ (n data : Nat) (s : Context),
      (Swd.txBits n data s).trace =
        s.trace ++ (List.range n).map (fun i => Event.w (data.testBit i))
  | 0, data, s => by simp [Swd.txBits]
  | n + 1, data, s => by
    show (Swd.txBits n (data / 2) (Swd.write_bit s (data % 2))).trace = _
    rw [Swd.txBits_trace n (data / 2) (Swd.write_bit s (data % 2)),
      Swd.write_bit_trace, List.range_succ_eq_map]
    simp only [List.map_map, List.map_cons, Function.comp, Nat.testBit_succ,
      Nat.testBit_zero, mod_two_bne, Nat.succ_eq_add_one]
    simp [mod_two_bne]
    intro a _
    exact (Nat.testBit_succ data a).symm

theorem Swd.tx8_trace (s : Context) (data : Nat) :
    (Swd.tx8 s data).trace =
      s.trace ++ (List.range 8).map (fun i => Event.w (data.testBit i)) := by
  show (Swd.txBits 8 data _).trace = _
  rw [Swd.txBits_trace]

theorem Swd.send_data_trace (s : Context) (data : Nat) (parity : Bool) :
    (Swd.send_data s data parity).trace =
      s.trace ++ (List.range 32).map (fun i => Event.w (data.testBit i)) ++
        [Event.w parity] := by
  show (Swd.write_bit (Swd.txBits 32 data _) _).trace = _
  rw [Swd.write_bit_trace, Swd.txBits_trace]
  have h : ((if parity then 1 else 0 : Nat) != 0) = parity := by cases parity <;> rfl
  rw [h]

theorem Ack.try_ok_error_ne_badparity (ack : Nat) (e : SwdError)
    (h : Ack.try_ok ack = Except.error e) : e ≠ SwdError.BadParity := by
  unfold Ack.try_ok at h
  split at h
  · cases h
  · split at h
    · cases h
      intro hc
      cases hc
    · split at h
      · cases h
        intro hc
        cases hc
      · cases h
        intro hc
        cases hc

/-! ### Claims -/

/-- C1 counterexample: on the exchange the claim describes — access-port flag
false, direction read, register address `0b00`, target answers ACK `0b001`
(OK) LSB-first, then the 32 bits of `0xDEADBEEF` LSB-first, then a parity bit
(1 in the first variant, 0 in the second), turnaround sampling low —
`read_inner` returns neither `Ok(0xDEADBEEF)` nor, in the parity-0 variant,
`Err(BadParity)`. -/
theorem read_inner_deadbeef_cex :
    (Swd.read_inner c1Ctx false 0).1 ≠ Except.ok 0xDEADBEEF ∧
    (Swd.read_inner c1Ctx0 false 0).1 ≠ Except.error SwdError.BadParity := by
  constructor <;> decide

/-- C1 (amended): on both variants of the exchange, `read_inner` returns
`Err(AckFault)`: the ACK nibble is assembled MSB-first with the turnaround
sample retained, so the target's OK answer `0b001` is validated as `0b100`
(FAULT) and the data/parity phase is never reached. -/
theorem read_inner_deadbeef_ackfault :
    (Swd.read_inner c1Ctx false 0).1 = Except.error SwdError.AckFault ∧
    (Swd.read_inner c1Ctx0 false 0).1 = Except.error SwdError.AckFault :=
  ⟨rfl, rfl⟩

/-- C2: with the sampled levels 0,1,0,0,(0) — a low turnaround followed by
the OK ACK `0b001` LSB-first — the value the read path hands to
acknowledgment validation (`rx4() >> 1`, `src/dap.rs` line 187) is 4, and
the value the write path hands (`(rx5() >> 1) & 0b111`, line 219) is 0,
while the three bits after the turnaround interpreted LSB-first (the spec's
reading) are 1: neither path discards the turnaround bit and interprets the
three ACK bits in received order. -/
theorem ack_extraction_mismatch :
    (Swd.rx4 (Swd.tx8 c2Ctx (make_request false true 0))).1 >>> 1 = 4 ∧
    ((Swd.rx5 (Swd.tx8 c2Ctx (make_request false false 0))).1 >>> 1) &&& 7 = 0 ∧
    spec_ack_bits c2Ctx = 1 ∧
    (Swd.rx4 (Swd.tx8 c2Ctx (make_request false true 0))).1 >>> 1 ≠
      spec_ack_bits c2Ctx ∧
    ((Swd.rx5 (Swd.tx8 c2Ctx (make_request false false 0))).1 >>> 1) &&& 7 ≠
      spec_ack_bits c2Ctx := by
  refine ⟨rfl, rfl, rfl, ?_, ?_⟩ <;> decide

/-- C5 counterexample: a requested frequency of 0 is strictly below the CPU
frequency, yet `set_clock` does not return `true` with an updated half-period
— it divides by zero (a Rust panic, modelled as `none`). -/
theorem set_clock_zero_cex :
    0 < c1Ctx.cpu_frequency ∧ Context.set_clock c1Ctx 0 = none :=
  ⟨by decide, rfl⟩

/-- C5 (amended): for every requested frequency `hz ≥ 1`, `set_clock` returns
`false` and leaves the context unchanged when `hz ≥ cpu_frequency`, and
returns `true` setting `half_period_ticks := cpu_frequency / hz / 2`
(truncating division) and `max_frequency := hz` when `hz < cpu_frequency`;
requesting 0 instead panics on a division by zero. -/
theorem set_clock_spec (c : Context) (hz : Nat) (h : 1 ≤ hz) :
    (c.cpu_frequency ≤ hz → Context.set_clock c hz = some (false, c)) ∧
    (hz < c.cpu_frequency →
      Context.set_clock c hz =
        some (true, { c with max_frequency := hz,
                             half_period_ticks := c.cpu_frequency / hz / 2 })) := by
  constructor
  · intro hge
    unfold Context.set_clock
    rw [if_neg (Nat.not_lt.mpr hge)]
  · intro hlt
    unfold Context.set_clock
    rw [if_pos hlt]
    have hd : checked_div c.cpu_frequency hz = some (c.cpu_frequency / hz) := by
      unfold checked_div
      rw [if_neg (by omega)]
    rw [hd]

/-- C5 witness: with `cpu_frequency = 125_000_000`, requesting `200_000_000`
is rejected with the context unchanged, and requesting `100_000` is accepted
with half-period 625. -/
theorem set_clock_spec_witness :
    Context.set_clock c1Ctx 200000000 = some (false, c1Ctx) ∧
    Context.set_clock c1Ctx 100000 =
      some (true, { c1Ctx with max_frequency := 100000,
                               half_period_ticks := 625 }) := by
  constructor
  · exact (set_clock_spec c1Ctx 200000000 (by decide)).1 (by decide)
  · rw [(set_clock_spec c1Ctx 100000 (by decide)).2 (by decide)]
    rfl

/-- C6: `configure` succeeds exactly for a single-cycle turnaround with no
extended data phase, and in every case returns the transport state
unchanged. -/
theorem configure_spec (s : Context) (p : TurnaroundPeriod) (dp : DataPhase) :
    ((Swd.configure s p dp).1 = true ↔
      p = TurnaroundPeriod.Cycles1 ∧ dp = DataPhase.NoDataPhase) ∧
    (Swd.configure s p dp).2 = s := by
  constructor
  · cases p <;> cases dp <;> simp [Swd.configure]
  · rfl

/-- C8 counterexample: a data-bearing protocol-v1-style report for which the
command processor would produce a positive response length elicits no reply
at all — the v1 arm of the handler is commented out in the source. -/
theorem on_usb_v1_dropped_cex :
    on_usb (fun _ _ => (1, [66])) (some (UsbRequest.DAP1Command [1] 1)) =
      UsbAction.no_action ∧ (1 : Nat) > 0 :=
  ⟨rfl, by decide⟩

/-- C8 (amended): for a protocol-v2-style data report the handler passes the
received payload to the command processor tagged `V2` and sends the response
on the v2 reply channel exactly when the produced length is non-zero; a
protocol-v1-style data report produces no action (its arm is commented out). -/
theorem on_usb_spec (process : List Nat → DapVersion → Nat × List Nat)
    (report : List Nat) (n : Nat) :
    on_usb process (some (UsbRequest.DAP2Command report n)) =
      (if (process (report.take n) DapVersion.V2).1 > 0
       then UsbAction.dap2_reply
         ((process (report.take n) DapVersion.V2).2.take
           (process (report.take n) DapVersion.V2).1)
       else UsbAction.no_action) ∧
    on_usb process (some (UsbRequest.DAP1Command report n)) = UsbAction.no_action :=
  ⟨rfl, rfl⟩

/-- C10 counterexample: 0 is a requested frequency strictly below the CPU
frequency that `set_clock` does not accept — it divides by zero (a Rust
panic, modelled as `none`). -/
theorem set_clock_zero_c10_cex :
    0 < c48Ctx.cpu_frequency ∧ Context.set_clock c48Ctx 0 = none :=
  ⟨by decide, rfl⟩

/-- C10 (amended): every nonzero requested frequency strictly between
`cpu_frequency / 2` and `cpu_frequency` is accepted, the computed half-period
`cpu_frequency / hz / 2` truncating to 0 ticks, after which a clocked-out bit
adds no busy-wait delay at all. -/
theorem set_clock_fast_zero_half_period (c : Context) (hz bit : Nat)
    (h1 : c.cpu_frequency / 2 < hz) (h2 : hz < c.cpu_frequency) :
    Context.set_clock c hz =
      some (true, { c with max_frequency := hz, half_period_ticks := 0 }) ∧
    (Swd.write_bit { c with max_frequency := hz, half_period_ticks := 0 }
        bit).delayed = c.delayed := by
  have h3 : c.cpu_frequency < hz * 2 := (Nat.div_lt_iff_lt_mul (by norm_num)).mp h1
  have hdiv : c.cpu_frequency / hz = 1 :=
    Nat.div_eq_of_lt_le (by omega) (by omega)
  constructor
  · unfold Context.set_clock
    rw [if_pos h2]
    have hd : checked_div c.cpu_frequency hz = some (c.cpu_frequency / hz) := by
      unfold checked_div
      rw [if_neg (by omega)]
    rw [hd, hdiv]
  · rw [Swd.write_bit_delayed]
    simp

/-- C4: whenever acknowledgment validation yields an error on a read (state
`s`) or on a write (state `sw`, bound independently so each path is covered
on every state where its own ACK fails), the engine returns exactly that
error after appending exactly four low-level drive cycles to the bus trace,
and the data line is in floating-input mode when control returns. -/
theorem ack_flush_on_error (s sw : Context) (apndp : Bool) (a data : Nat)
    (e e2 : SwdError)
    (hr : Ack.try_ok ((Swd.rx4 (Swd.tx8 s (make_request apndp true a))).1 >>> 1) =
      Except.error e)
    (hw : Ack.try_ok
        (((Swd.rx5 (Swd.tx8 sw (make_request apndp false a))).1 >>> 1) &&& 7) =
      Except.error e2) :
    (Swd.read_inner s apndp a).1 = Except.error e ∧
    (Swd.read_inner s apndp a).2.trace =
      (Swd.rx4 (Swd.tx8 s (make_request apndp true a))).2.trace ++
        [Event.w false, Event.w false, Event.w false, Event.w false] ∧
    (Swd.read_inner s apndp a).2.swdio.mode = PinMode.floatingInput ∧
    (Swd.write_inner sw apndp a data).1 = Except.error e2 ∧
    (Swd.write_inner sw apndp a data).2.trace =
      (Swd.rx5 (Swd.tx8 sw (make_request apndp false a))).2.trace ++
        [Event.w false, Event.w false, Event.w false, Event.w false] ∧
    (Swd.write_inner sw apndp a data).2.swdio.mode = PinMode.floatingInput := by
  have hread : Swd.read_inner s apndp a =
      (Except.error e,
        Swd.idle_low (Swd.rx4 (Swd.tx8 s (make_request apndp true a))).2) := by
    simp only [Swd.read_inner]
    rw [hr]
  have hwrite : Swd.write_inner sw apndp a data =
      (Except.error e2,
        Swd.idle_low (Swd.rx5 (Swd.tx8 sw (make_request apndp false a))).2) := by
    simp only [Swd.write_inner]
    rw [hw]
  rw [hread, hwrite]
  refine ⟨rfl, ?_, ?_, rfl, ?_, ?_⟩
  · exact Swd.idle_low_trace _
  · rw [Swd.idle_low_swdio_mode, Swd.rx4_swdio_mode]
  · exact Swd.idle_low_trace _
  · rw [Swd.idle_low_swdio_mode, Swd.rx5_swdio_mode]

/-- C4 witness: against a target that never drives the line (all-low samples,
ACK nibble 0, validated as no-response), both the read and the write return
the ACK error after exactly four low drive cycles, data line floating. -/
theorem ack_flush_on_error_witness :
    (Swd.read_inner c0Ctx false 0).1 = Except.error SwdError.AckNoResponse ∧
    (Swd.read_inner c0Ctx false 0).2.trace =
      (Swd.rx4 (Swd.tx8 c0Ctx (make_request false true 0))).2.trace ++
        [Event.w false, Event.w false, Event.w false, Event.w false] ∧
    (Swd.read_inner c0Ctx false 0).2.swdio.mode = PinMode.floatingInput ∧
    (Swd.write_inner c0Ctx false 0 0).1 = Except.error SwdError.AckNoResponse ∧
    (Swd.write_inner c0Ctx false 0 0).2.trace =
      (Swd.rx5 (Swd.tx8 c0Ctx (make_request false false 0))).2.trace ++
        [Event.w false, Event.w false, Event.w false, Event.w false] ∧
    (Swd.write_inner c0Ctx false 0 0).2.swdio.mode = PinMode.floatingInput :=
  ack_flush_on_error c0Ctx c0Ctx false 0 0 SwdError.AckNoResponse
    SwdError.AckNoResponse rfl rfl

/-- C10 witness: with `cpu_frequency = 48_000_000`, requesting `30_000_000`
(above half the CPU clock) is accepted with a half-period of 0 ticks, and a
subsequent clocked bit adds no delay. -/
theorem set_clock_fast_witness :
    Context.set_clock c48Ctx 30000000 =
      some (true, { c48Ctx with max_frequency := 30000000,
                                half_period_ticks := 0 }) ∧
    (Swd.write_bit { c48Ctx with max_frequency := 30000000,
                                 half_period_ticks := 0 } 1).delayed =
      c48Ctx.delayed :=
  set_clock_fast_zero_half_period c48Ctx 30000000 1 (by decide) (by decide)

theorem Context.sequence_byte_trace_len (n : Nat) :
    ∀ (byte : Nat) (s : Context),
      (Context.sequence_byte n byte s).trace.length = s.trace.length + n := by
  induction n with
  | zero => intro byte s; rfl
  | succ n ih =>
    intro byte s
    simp only [Context.sequence_byte, Context.delay]
    rw [ih]
    simp only [List.length_append, List.length_cons, List.length_nil]
    omega

theorem Context.sequence_loop_trace_len (data : List Nat) :
    ∀ (bits : Nat) (s : Context),
      (Context.sequence_loop data bits s).trace.length =
        s.trace.length + min bits (8 * data.length) := by
  induction data with
  | nil => intro bits s; simp [Context.sequence_loop]
  | cons byte rest ih =>
    intro bits s
    simp only [Context.sequence_loop]
    rw [ih, Context.sequence_byte_trace_len]
    simp only [List.length_cons]
    omega

/-- C9: for every byte list and bit count, `sequence` clocks out exactly
`min(bit_count, 8 * length(data))` bits — a bit count beyond the data is
silently capped, and the byte list is never read past its end — and on
return both the clock and the data line are in floating-input mode. -/
theorem sequence_caps_bits (s : Context) (data : List Nat) (bits : Nat) :
    (Context.sequence s data bits).trace.length =
      s.trace.length + min bits (8 * data.length) ∧
    (Context.sequence s data bits).swdio.mode = PinMode.floatingInput ∧
    (Context.sequence s data bits).swclk.mode = PinMode.floatingInput := by
  refine ⟨?_, rfl, rfl⟩
  show (Context.sequence_loop data bits _).trace.length = _
  rw [Context.sequence_loop_trace_len]

/-- C7: the line-level `pins` operation drives each masked line as requested
— clock and data to push-pull output at the requested level, reset
open-drain: floated/disabled on a requested high, driven low as an output on
a requested low — waits `cycles_per_us * wait_us` cycles, then floats all
three lines and returns their sampled wire levels as the result mask. -/
theorem pins_drive_sample (s : Context) (output mask : Pins) (wait_us : Nat) :
    ((Context.pins_drive s output mask).swclk =
      if mask.swclk then Pin.mk PinMode.pushPullOutput output.swclk
      else s.swclk) ∧
    ((Context.pins_drive s output mask).swdio =
      if mask.swdio then Pin.mk PinMode.pushPullOutput output.swdio
      else s.swdio) ∧
    ((Context.pins_drive s output mask).nreset =
      if mask.nreset then
        (if output.nreset then { s.nreset with mode := PinMode.floatingDisabled }
         else Pin.mk PinMode.pushPullOutput false)
      else s.nreset) ∧
    (Context.pins s output mask wait_us).2.delayed =
      s.delayed + s.cycles_per_us * wait_us ∧
    (Context.pins s output mask wait_us).2.swclk.mode = PinMode.floatingInput ∧
    (Context.pins s output mask wait_us).2.swdio.mode = PinMode.floatingInput ∧
    (Context.pins s output mask wait_us).2.nreset.mode = PinMode.floatingInput ∧
    (Context.pins s output mask wait_us).1 =
      { swclk := s.wire_swclk, swdio := s.tgt s.pos, nreset := s.wire_nreset } := by
  rcases mask with ⟨mc, md, mn⟩
  rcases output with ⟨oc, od, onr⟩
  cases mc <;> cases md <;> cases mn <;> cases onr <;>
    simp [Context.pins, Context.pins_drive, Context.sample_swdio, Context.delay,
      Pin.setState, Pin.intoPushPullOutput, Pin.intoFloatingInput,
      Pin.intoFloatingDisabled]

/-- C3: the engine's parity is population count mod 2 of the 32-bit word.
`send_data` drives the word's 32 bits LSB-first followed by the given parity
bit; a write whose ACK validates as OK transmits
`count_ones(data) % 2 == 1` as that parity bit (then 8 idle bits); and a
read returns `Err(BadParity)` exactly when the ACK validated as OK and the
received parity bit differs from the population count mod 2 of the received
word — so a parity mismatch is reported even though the ACK was OK. -/
theorem swd_parity_popcount (s sw : Context) (apndp : Bool) (a data : Nat)
    (parity : Bool)
    (hack : Ack.try_ok
        (((Swd.rx5 (Swd.tx8 sw (make_request apndp false a))).1 >>> 1) &&& 7) =
      Except.ok ()) :
    (Swd.send_data s data parity).trace =
      s.trace ++ (List.range 32).map (fun i => Event.w (data.testBit i)) ++
        [Event.w parity] ∧
    (Swd.write_inner sw apndp a data).2.trace =
      (Swd.rx5 (Swd.tx8 sw (make_request apndp false a))).2.trace ++
        (List.range 32).map (fun i => Event.w (data.testBit i)) ++
        [Event.w (count_ones data % 2 == 1)] ++
        [Event.w false, Event.w false, Event.w false, Event.w false,
         Event.w false, Event.w false, Event.w false, Event.w false] ∧
    ((Swd.read_inner s apndp a).1 = Except.error SwdError.BadParity ↔
      (Ack.try_ok ((Swd.rx4 (Swd.tx8 s (make_request apndp true a))).1 >>> 1) =
        Except.ok () ∧
       (if (Swd.read_data
              (Swd.rx4 (Swd.tx8 s (make_request apndp true a))).2).1.2
        then 1 else 0) ≠
         count_ones
           (Swd.read_data
             (Swd.rx4 (Swd.tx8 s (make_request apndp true a))).2).1.1 % 2)) := by
  refine ⟨Swd.send_data_trace s data parity, ?_, ?_⟩
  · have hwrite : Swd.write_inner sw apndp a data =
        (Except.ok (),
          Swd.tx8
            (Swd.send_data (Swd.rx5 (Swd.tx8 sw (make_request apndp false a))).2
              data (count_ones data % 2 == 1)) 0) := by
      simp only [Swd.write_inner]
      rw [hack]
    rw [hwrite, Swd.tx8_trace, Swd.send_data_trace]
    have h0 : (List.range 8).map (fun i => Event.w ((0 : Nat).testBit i)) =
        [Event.w false, Event.w false, Event.w false, Event.w false,
         Event.w false, Event.w false, Event.w false, Event.w false] := rfl
    rw [h0]
  · cases h : Ack.try_ok
        ((Swd.rx4 (Swd.tx8 s (make_request apndp true a))).1 >>> 1) with
    | error e =>
      have hne := Ack.try_ok_error_ne_badparity _ e h
      have hread : Swd.read_inner s apndp a =
          (Except.error e,
            Swd.idle_low (Swd.rx4 (Swd.tx8 s (make_request apndp true a))).2) := by
        simp only [Swd.read_inner]
        rw [h]
      rw [hread]
      simp [h, hne]
    | ok u =>
      cases u
      have hread : Swd.read_inner s apndp a =
          (if (if (Swd.read_data
                    (Swd.rx4 (Swd.tx8 s (make_request apndp true a))).2).1.2
               then 1 else 0) =
              count_ones
                (Swd.read_data
                  (Swd.rx4 (Swd.tx8 s (make_request apndp true a))).2).1.1 % 2
           then
             (Except.ok
                (Swd.read_data
                  (Swd.rx4 (Swd.tx8 s (make_request apndp true a))).2).1.1,
              Swd.write_bit
                ((Swd.rx8
                  (Swd.read_data
                    (Swd.rx4 (Swd.tx8 s (make_request apndp true a))).2).2).2) 0)
           else
             (Except.error SwdError.BadParity,
              Swd.write_bit
                ((Swd.rx8
                  (Swd.read_data
                    (Swd.rx4 (Swd.tx8 s (make_request apndp true a))).2).2).2) 0)) := by
        simp only [Swd.read_inner]
        rw [h]
      rw [hread]
      by_cases hc :
          (if (Swd.read_data
                (Swd.rx4 (Swd.tx8 s (make_request apndp true a))).2).1.2
           then 1 else 0) =
            count_ones
              (Swd.read_data
                (Swd.rx4 (Swd.tx8 s (make_request apndp true a))).2).1.1 % 2
      · rw [if_pos hc]
        simp [hc]
      · rw [if_neg hc]
        simp [hc]

set_option maxRecDepth 8192 in
/-- C3 witness: against a target whose samples make the read ACK validate OK
and then supply an all-zero word with a parity bit of 1, the read reports
`BadParity`; against one whose samples make the write ACK validate OK, a
write of `0xDEADBEEF` transmits parity bit `count_ones(0xDEADBEEF) % 2 == 1`
(= 0, the word has 24 set bits) after its 32 data bits. -/
theorem swd_parity_popcount_witness :
    (Swd.read_inner cReadCtx false 0).1 = Except.error SwdError.BadParity ∧
    (Swd.write_inner cWriteCtx false 0 0xDEADBEEF).2.trace =
      (Swd.rx5 (Swd.tx8 cWriteCtx (make_request false false 0))).2.trace ++
        (List.range 32).map (fun i => Event.w ((0xDEADBEEF : Nat).testBit i)) ++
        [Event.w (count_ones 0xDEADBEEF % 2 == 1)] ++
        [Event.w false, Event.w false, Event.w false, Event.w false,
         Event.w false, Event.w false, Event.w false, Event.w false] ∧
    (Swd.send_data cReadCtx 0xDEADBEEF true).trace =
      cReadCtx.trace ++
        (List.range 32).map (fun i => Event.w ((0xDEADBEEF : Nat).testBit i)) ++
        [Event.w true] := by
  obtain ⟨h1, h2, h3⟩ :=
    swd_parity_popcount cReadCtx cWriteCtx false 0 0xDEADBEEF true rfl
  have hp : (Swd.read_data
      (Swd.rx4 (Swd.tx8 cReadCtx (make_request false true 0))).2).1.2 = true := rfl
  have hw : (Swd.read_data
      (Swd.rx4 (Swd.tx8 cReadCtx (make_request false true 0))).2).1.1 = 0 := rfl
  refine ⟨h3.mpr ⟨rfl, ?_⟩, h2, h1⟩
  rw [hp, hw]
  norm_num [count_ones, count_ones_fuel]

end PicoProbe
